import Mathlib

/-!
Shallow embedding of the user-authentication flow of the learn-expressJS
repository: the user controller (registerUser, loginUser, logoutUser,
refreshAccessToken, generateAccessAndRefreshTokens) and the upload helper
uploadOnCloudnary, together with the response and error envelopes they
produce.  Parts of the repository that are imported by the controller but
absent from the source tree (the user model with its token and password
methods, the ApiResponce envelope, the persistence layer) are modelled
from the specification and marked as such in their doc comments.
-/

deriving instance DecidableEq for Except

namespace LearnExpress

/-- Process environment: the two JWT signing secrets read from
ACCESS_TOKEN_SECRET and REFRESH_TOKEN_SECRET. -/
structure Env where
  accessTokenSecret : String
  refreshTokenSecret : String
deriving DecidableEq

/-- Modelled from the spec: a signed claim set (JWT).  The subject is the
user id embedded in the token, the secret records which key signed it,
expired records whether its expiry has passed, and nonce distinguishes
separately minted tokens (in the source a token is an opaque signed
string; distinct mints yield distinct strings). -/
structure Token where
  subject : Nat
  secret : String
  expired : Bool
  nonce : Nat
deriving DecidableEq

/-- A persisted user record (the user model is imported by the controller
but its file is not in the source tree; fields follow the spec data model:
unique username and email, display name, hashed secret, avatar and cover
references, optional stored refresh token). -/
structure UserRecord where
  id : Nat
  username : String
  email : String
  fullName : String
  password : String
  avatar : String
  coverImage : String
  refreshToken : Option Token
deriving DecidableEq

/-- The database: a list of user records. -/
abbrev DB := List UserRecord

/-- The user record with the password and refreshToken fields stripped,
as produced by select with minus password and minus refreshToken. -/
structure PublicUser where
  id : Nat
  username : String
  email : String
  fullName : String
  avatar : String
  coverImage : String
deriving DecidableEq

/-- Strip the password and refreshToken fields from a record
(the select call with minus password minus refreshToken). -/
def sanitize (u : UserRecord) : PublicUser :=
  { id := u.id, username := u.username, email := u.email,
    fullName := u.fullName, avatar := u.avatar, coverImage := u.coverImage }

/-- User.findById: first record whose id matches. -/
def findById (db : DB) (userId : Nat) : Option UserRecord :=
  db.find? (fun u => u.id == userId)

/-- Modelled from the spec (persistence collaborator, user model not in
the source tree): one-way hashing applied transparently before storage.
The tag keeps the stored secret distinct from the plaintext. -/
def hashPassword (plain : String) : String :=
  "hashed$" ++ plain

/-- Modelled from the spec: isPasswordCorrrect on the user model verifies
the supplied secret against the stored hash; an absent (undefined)
supplied secret never matches. -/
def isPasswordCorrrect (u : UserRecord) (plain : Option String) : Bool :=
  match plain with
  | some p => u.password == hashPassword p
  | none => false

/-- JavaScript truthiness for an optional string: undefined and the empty
string are falsy. -/
def jsFalsy (s : Option String) : Bool :=
  match s with
  | none => true
  | some str => str == ""

/-- The structured error value of apiError.js: status code, message and
field-level sub-errors; its success flag is fixed false. -/
structure ApiError where
  statusCode : Nat
  message : String
  errors : List String
deriving DecidableEq

/-- A handler failure: either a structured ApiError thrown by the
controller, or a plain JavaScript runtime error (for example a TypeError)
that escapes to the async dispatch adapter. -/
inductive Failure where
  | api (e : ApiError)
  | js (msg : String)
deriving DecidableEq

/-- Modelled from the spec: the success envelope of apiResponce.js with a
numeric code, payload and message (its success flag is code below 400,
see ApiResponce.success). -/
structure ApiResponce (α : Type) where
  statusCode : Nat
  data : α
  message : String
deriving DecidableEq

/-- The success flag of the envelope. -/
def ApiResponce.success {α : Type} (r : ApiResponce α) : Bool :=
  r.statusCode < 400

/-- Options attached to a set cookie. -/
structure CookieOptions where
  httpOnly : Bool
  secure : Bool
deriving DecidableEq

/-- What a handler sends on success: the HTTP status passed to res.status,
the cookies set (name, value, options; the value is an optional token
because the source can set an undefined value), the cookies cleared, and
the JSON body. -/
structure HResponse (α : Type) where
  status : Nat
  cookies : List (String × Option Token × CookieOptions)
  clearedCookies : List String
  body : ApiResponce α
deriving DecidableEq

/-- The http-only secure cookie options used by login, logout and
refresh. -/
def secureOpts : CookieOptions :=
  { httpOnly := true, secure := true }

/-- Modelled from the spec: generateAccessToken on the user model mints a
short-lived signed claim set whose subject is the record id, signed with
the access secret. -/
def mkAccessToken (env : Env) (u : UserRecord) (nonce : Nat) : Token :=
  { subject := u.id, secret := env.accessTokenSecret, expired := false, nonce := nonce }

/-- Modelled from the spec: generateRefreshToken on the user model mints a
longer-lived signed claim set whose subject is the record id, signed with
the refresh secret. -/
def mkRefreshToken (env : Env) (u : UserRecord) (nonce : Nat) : Token :=
  { subject := u.id, secret := env.refreshTokenSecret, expired := false, nonce := nonce }

/-- Persistence update used by save after assigning user.refreshToken:
every record with the given id is replaced. -/
def updateById (db : DB) (uid : Nat) (u : UserRecord) : DB :=
  match db with
  | [] => []
  | v :: tl => (if v.id == uid then u else v) :: updateById tl uid u

/-- generateAccessAndRefreshTokens from the controller: load the user,
mint both tokens, store the refresh token on the record and save.  Any
failure inside (in the source, calling a method on a null user) is caught
and re-thrown as a 500 ApiError. -/
def generateAccessAndRefreshTokens (env : Env) (db : DB) (userId : Nat) (nonce : Nat) :
    Except Failure (Token × Token × DB) :=
  match findById db userId with
  | none =>
    Except.error (Failure.api
      { statusCode := 500,
        message := "Something went wromg while generating access and refresh tokens",
        errors := [] })
  | some user =>
    let accessToken := mkAccessToken env user nonce
    let refreshToken := mkRefreshToken env user nonce
    let user2 := { user with refreshToken := some refreshToken }
    Except.ok (accessToken, refreshToken, updateById db userId user2)

/-- JavaScript or-expression on the two optional refresh-token sources
(cookie first, then body). -/
def jsOrToken (a b : Option Token) : Option Token :=
  match a with
  | some t => some t
  | none => b

/-- jwt.verify against a secret: an absent token is rejected (jwt must be
provided), otherwise the expiry and the signing secret are checked and
the decoded subject (the embedded user id) is returned. -/
def jwtVerify (tok : Option Token) (secret : String) : Except String Nat :=
  match tok with
  | none => Except.error "jwt must be provided"
  | some t =>
    if t.expired then Except.error "jwt expired"
    else if t.secret == secret then Except.ok t.subject
    else Except.error "invalid signature"

/-- Body of the refresh response: the new access token and the value
bound to newrefreshToken (which the destructuring in the source leaves
undefined, because generateAccessAndRefreshTokens returns the key
refreshToken, not newrefreshToken). -/
structure RefreshData where
  accessToken : Token
  refreshToken : Option Token
deriving DecidableEq

/-- refreshAccessToken from the controller, embedded line by line: read
the incoming token from cookie or body; if it IS present, throw 401
Unauthorized request (the source condition at line 185 checks presence,
not absence); otherwise enter the try block, whose catch re-throws every
error as a 401 ApiError carrying the message of the original error. -/
def refreshAccessToken (env : Env) (db : DB) (nonce : Nat)
    (cookieRefreshToken bodyRefreshToken : Option Token) :
    Except Failure (HResponse RefreshData × DB) :=
  let incomingRefreshToken := jsOrToken cookieRefreshToken bodyRefreshToken
  if incomingRefreshToken.isSome then
    Except.error (Failure.api { statusCode := 401, message := "Unauthorized request", errors := [] })
  else
    match jwtVerify incomingRefreshToken env.refreshTokenSecret with
    | Except.error msg =>
      Except.error (Failure.api { statusCode := 401, message := msg, errors := [] })
    | Except.ok decodedId =>
      match findById db decodedId with
      | none =>
        Except.error (Failure.api
          { statusCode := 401, message := "Invalid refresh token", errors := [] })
      | some user =>
        if incomingRefreshToken ≠ user.refreshToken then
          Except.error (Failure.api
            { statusCode := 401, message := "Refresh token is expired or used", errors := [] })
        else
          match generateAccessAndRefreshTokens env db user.id nonce with
          | Except.error (Failure.api a) =>
            Except.error (Failure.api { statusCode := 401, message := a.message, errors := [] })
          | Except.error (Failure.js m) =>
            Except.error (Failure.api { statusCode := 401, message := m, errors := [] })
          | Except.ok (accessToken, _mintedRefreshToken, db1) =>
            let newrefreshToken : Option Token := none
            Except.ok
              ({ status := 200,
                 cookies := [("accessToken", some accessToken, secureOpts),
                             ("refreshToken", newrefreshToken, secureOpts)],
                 clearedCookies := [],
                 body := { statusCode := 200,
                           data := { accessToken := accessToken, refreshToken := newrefreshToken },
                           message := "Access token refreshed" } }, db1)

/-- The local filesystem holding multer temporary files: the set of
existing paths. -/
abbrev FileSys := List String

/-- The response of the external upload service: a remote url plus
metadata. -/
structure UploadApiResponse where
  url : String
  publicId : String
deriving DecidableEq

/-- fs.unlinkSync: removes the file, or throws ENOENT when the path does
not exist. -/
def unlinkSync (fs : FileSys) (p : String) : Except String FileSys :=
  if p ∈ fs then Except.ok (fs.filter (fun q => q ≠ p)) else Except.error "ENOENT"

/-- uploadOnCloudnary from cloudinary.js.  The first argument is the
outcome of the external cloudinary upload call for a given path (resolve
with a response, or reject).  A falsy (absent or empty) local path
returns null immediately.  A rejected upload is swallowed by the attached
catch handler, leaving the response undefined; the local file is then
unlinked and the response returned.  If unlinkSync itself throws, the
outer catch unlinks again, and that second throw escapes the function. -/
def uploadOnCloudnary (uploadOutcome : String → Except String UploadApiResponse)
    (fs : FileSys) (localFilePath : Option String) :
    Except String (Option UploadApiResponse × FileSys) :=
  match localFilePath with
  | none => Except.ok (none, fs)
  | some p =>
    if p = "" then Except.ok (none, fs)
    else
      let response : Option UploadApiResponse :=
        match uploadOutcome p with
        | Except.ok r => some r
        | Except.error _ => none
      match unlinkSync fs p with
      | Except.ok fs1 => Except.ok (response, fs1)
      | Except.error _ =>
        match unlinkSync fs p with
        | Except.ok fs1 => Except.ok (none, fs1)
        | Except.error e => Except.error e

/-- One file written by the multer middleware. -/
structure UploadedFile where
  path : String
deriving DecidableEq

/-- req.files as populated by upload.fields for avatar and coverImage:
each key is absent when no such file was sent, otherwise a list of
files. -/
structure ReqFiles where
  avatar : Option (List UploadedFile)
  coverImage : Option (List UploadedFile)
deriving DecidableEq

/-- A registration request: the four body fields (each possibly absent),
req.files, and the reqCoverImage field standing for the expression
req.coverImage read at line 65 of the controller — a property no
middleware ever sets on the request, hence undefined at runtime. -/
structure RegisterRequest where
  fullName : Option String
  email : Option String
  username : Option String
  password : Option String
  files : Option ReqFiles
  reqCoverImage : Option (List UploadedFile)
deriving DecidableEq

/-- Models the JavaScript string trim called by the controller: drop
whitespace characters from both ends of the character sequence. -/
def jsTrim (s : String) : String :=
  String.mk (((s.data.dropWhile Char.isWhitespace).reverse.dropWhile Char.isWhitespace).reverse)

/-- The per-field emptiness test at line 48 of the controller:
field optional-chain trim strictly-equals the empty string.  An absent
field yields undefined, and undefined strictly-equals the empty string is
false, so an absent field does NOT count as empty here. -/
def jsTrimEqEmpty (field : Option String) : Bool :=
  match field with
  | some s => jsTrim s == ""
  | none => false

/-- The avatar path expression req.files optional-chain avatar index zero
optional-chain path: when req.files is absent the whole chain is
undefined; when req.files exists but has no avatar key, indexing
undefined throws a TypeError. -/
def getAvatarLocalPath (files : Option ReqFiles) : Except Failure (Option String) :=
  match files with
  | none => Except.ok none
  | some f =>
    match f.avatar with
    | none => Except.error (Failure.js "TypeError: Cannot read properties of undefined (reading 0)")
    | some l => Except.ok (l.head?.map (fun file => file.path))

/-- The cover-image path logic at lines 64 to 67: the condition requires
req.files to exist, req.files.coverImage to be an array, and then reads
req.coverImage.length — but req.coverImage is undefined, so reaching that
third conjunct throws a TypeError. -/
def getCoverImageLocalPath (req : RegisterRequest) : Except Failure (Option String) :=
  match req.files with
  | none => Except.ok none
  | some f =>
    match f.coverImage with
    | none => Except.ok none
    | some arr =>
      match req.reqCoverImage with
      | none =>
        Except.error (Failure.js "TypeError: Cannot read properties of undefined (reading length)")
      | some l =>
        if l.length > 0 then Except.ok (arr.head?.map (fun file => file.path))
        else Except.ok none

/-- Modelled from the spec (persistence collaborator): User.findOne with
an or-query on username and email; an absent key contributes no match. -/
def findOne (db : DB) (username email : Option String) : Option UserRecord :=
  db.find? (fun u =>
    (match username with
     | some s => u.username == s
     | none => false) ||
    (match email with
     | some s => u.email == s
     | none => false))

/-- username.toLowerCase() at line 86: throws a TypeError when username
is undefined. -/
def jsToLowerCase (s : Option String) : Except Failure String :=
  match s with
  | some str => Except.ok (String.mk (str.data.map Char.toLower))
  | none =>
    Except.error (Failure.js "TypeError: Cannot read properties of undefined (reading toLowerCase)")

/-- A database id never used by an existing record. -/
def freshId (db : DB) : Nat :=
  db.foldl (fun m u => max m (u.id + 1)) 0

/-- coverImage optional-chain url or-else empty string at line 83. -/
def coverUrlOrEmpty (cover : Option UploadApiResponse) : String :=
  match cover with
  | some r => r.url
  | none => ""

/-- Modelled from the spec (user model not in the source tree):
User.create persists a new record, hashing the password transparently
before storage; the schema rejects a document missing a required field. -/
def userCreate (db : DB) (fullName : Option String) (avatarUrl coverImageUrl : String)
    (email : Option String) (password : Option String) (usernameLower : String) :
    Except Failure (UserRecord × DB) :=
  match fullName, email, password with
  | some fn, some em, some pw =>
    let u : UserRecord :=
      { id := freshId db, username := usernameLower, email := em, fullName := fn,
        password := hashPassword pw, avatar := avatarUrl, coverImage := coverImageUrl,
        refreshToken := none }
    Except.ok (u, db ++ [u])
  | _, _, _ => Except.error (Failure.js "ValidationError: required field missing")

/-- registerUser from the controller, embedded step by step in source
order: emptiness validation (line 48), uniqueness lookup (line 52),
avatar path (line 60), cover-image path (lines 64 to 67), mandatory
avatar check (line 69), the two uploads (lines 73 to 74), the null-avatar
check (line 76), creation (line 80), re-fetch with password and
refreshToken stripped (line 89), and the 201 response whose envelope is
built with code 200 (lines 97 to 99). -/
def registerUser (uploadOutcome : String → Except String UploadApiResponse)
    (db : DB) (fs : FileSys) (req : RegisterRequest) :
    Except Failure (HResponse PublicUser × DB × FileSys) :=
  if [req.fullName, req.email, req.username, req.password].any jsTrimEqEmpty then
    Except.error (Failure.api
      { statusCode := 400, message := "All fields are required", errors := [] })
  else
    match findOne db req.username req.email with
    | some _ =>
      Except.error (Failure.api
        { statusCode := 409, message := "User with email or username already exists", errors := [] })
    | none =>
      match getAvatarLocalPath req.files with
      | Except.error e => Except.error e
      | Except.ok avatarLocalPath =>
        match getCoverImageLocalPath req with
        | Except.error e => Except.error e
        | Except.ok coverImageLocalPath =>
          if avatarLocalPath.getD "" = "" then
            Except.error (Failure.api
              { statusCode := 400, message := "Avatar file is required", errors := [] })
          else
            match uploadOnCloudnary uploadOutcome fs avatarLocalPath with
            | Except.error e => Except.error (Failure.js e)
            | Except.ok (avatar, fs1) =>
              match uploadOnCloudnary uploadOutcome fs1 coverImageLocalPath with
              | Except.error e => Except.error (Failure.js e)
              | Except.ok (coverImage, fs2) =>
                match avatar with
                | none =>
                  Except.error (Failure.api
                    { statusCode := 400, message := "Avatar is required", errors := [] })
                | some avatarResp =>
                  match jsToLowerCase req.username with
                  | Except.error e => Except.error e
                  | Except.ok usernameLower =>
                    match userCreate db req.fullName avatarResp.url
                        (coverUrlOrEmpty coverImage) req.email req.password usernameLower with
                    | Except.error e => Except.error e
                    | Except.ok (user, db1) =>
                      match findById db1 user.id with
                      | none =>
                        Except.error (Failure.api
                          { statusCode := 500,
                            message := "Something went wrong while registration", errors := [] })
                      | some createdUser =>
                        Except.ok
                          ({ status := 201,
                             cookies := [],
                             clearedCookies := [],
                             body := { statusCode := 200,
                                       data := sanitize createdUser,
                                       message := "User registered sucessfully" } }, db1, fs2)

/-- A login request body: email, username and password, each possibly
absent. -/
structure LoginRequest where
  email : Option String
  username : Option String
  password : Option String
deriving DecidableEq

/-- Body of the login response: the sanitized re-fetched record (null if
the re-fetch finds nothing) and the two tokens. -/
structure LoginData where
  user : Option PublicUser
  accessToken : Token
  refreshToken : Token
deriving DecidableEq

/-- loginUser from the controller: require username or email (line 112),
look up the record (line 116), check the password (line 124), mint and
persist the token pair (line 130), re-fetch the sanitized record
(line 132), and respond 200 with both tokens as http-only secure cookies
and in the body (lines 141 to 153). -/
def loginUser (env : Env) (db : DB) (nonce : Nat) (req : LoginRequest) :
    Except Failure (HResponse LoginData × DB) :=
  if jsFalsy req.username && jsFalsy req.email then
    Except.error (Failure.api
      { statusCode := 400, message := "Username or email is required", errors := [] })
  else
    match findOne db req.username req.email with
    | none =>
      Except.error (Failure.api { statusCode := 404, message := "User not exist", errors := [] })
    | some user =>
      if isPasswordCorrrect user req.password = false then
        Except.error (Failure.api
          { statusCode := 401, message := "Invalid user credentials", errors := [] })
      else
        match generateAccessAndRefreshTokens env db user.id nonce with
        | Except.error e => Except.error e
        | Except.ok (accessToken, refreshToken, db1) =>
          let loggedInUser := findById db1 user.id
          Except.ok
            ({ status := 200,
               cookies := [("accessToken", some accessToken, secureOpts),
                           ("refreshToken", some refreshToken, secureOpts)],
               clearedCookies := [],
               body := { statusCode := 200,
                         data := { user := loggedInUser.map sanitize,
                                   accessToken := accessToken,
                                   refreshToken := refreshToken },
                         message := "User logged in succesfully" } }, db1)

/-- Modelled from the spec (persistence collaborator): the
findByIdAndUpdate call of logoutUser, which per section 4.6 clears the
persisted refresh token of the given record (the controller writes the
refreshToken field as undefined). -/
def findByIdAndUpdateClearRefreshToken (db : DB) (uid : Nat) : DB :=
  match db with
  | [] => []
  | v :: tl =>
    (if v.id == uid then { v with refreshToken := none } else v) ::
      findByIdAndUpdateClearRefreshToken tl uid

/-- logoutUser from the controller: clear the stored refresh token of the
authenticated principal (req.user, attached by the verifyJWT guard),
clear both cookies and respond 200. -/
def logoutUser (db : DB) (principalId : Nat) : HResponse Unit × DB :=
  let db1 := findByIdAndUpdateClearRefreshToken db principalId
  ({ status := 200,
     cookies := [],
     clearedCookies := ["accessToken", "refreshToken"],
     body := { statusCode := 200, data := (), message := "User logged out" } }, db1)

/-- Every call to the embedded refresh handler fails with a 401 ApiError:
a present incoming token trips the inverted presence check, and an absent
one makes jwt.verify reject inside the try block. -/
theorem refreshAccessToken_always_401 (env : Env) (db : DB) (nonce : Nat)
    (ctok btok : Option Token) :
    ∃ a, refreshAccessToken env db nonce ctok btok = Except.error (Failure.api a) ∧
      a.statusCode = 401 := by
  unfold refreshAccessToken
  cases h : jsOrToken ctok btok with
  | some t =>
    refine ⟨{ statusCode := 401, message := "Unauthorized request", errors := [] }, ?_, rfl⟩
    simp [h]
  | none =>
    refine ⟨{ statusCode := 401, message := "jwt must be provided", errors := [] }, ?_, rfl⟩
    simp [h, jwtVerify]

/-- If the incoming refresh token (from cookie or body) is present, the
handler rejects it at once with 401 Unauthorized request. -/
theorem refreshAccessToken_present_token_401 (env : Env) (db : DB) (nonce : Nat)
    (ctok btok : Option Token) (t : Token) (h : jsOrToken ctok btok = some t) :
    refreshAccessToken env db nonce ctok btok =
      Except.error (Failure.api
        { statusCode := 401, message := "Unauthorized request", errors := [] }) := by
  unfold refreshAccessToken
  simp [h]

/-- Fixture: environment with distinct access and refresh secrets. -/
def env0 : Env := { accessTokenSecret := "accsec", refreshTokenSecret := "refsec" }

/-- Fixture: the refresh token stored on the fixture user, signed with the
refresh secret and unexpired. -/
def storedTok0 : Token := { subject := 0, secret := "refsec", expired := false, nonce := 0 }

/-- Fixture: another validly signed unexpired refresh token for the same
user, superseded (it differs from the stored one). -/
def staleTok0 : Token := { subject := 0, secret := "refsec", expired := false, nonce := 7 }

/-- Fixture: a registered user holding storedTok0. -/
def user0 : UserRecord :=
  { id := 0, username := "a", email := "a@x.com", fullName := "A",
    password := hashPassword "p", avatar := "http://cdn/av.png", coverImage := "",
    refreshToken := some storedTok0 }

/-- Fixture: database containing only user0. -/
def db0 : DB := [user0]

/-- Fixture: the multer avatar file. -/
def avatarFile0 : UploadedFile := { path := "/tmp/av.png" }

/-- Fixture: the multer cover-image file. -/
def coverFile0 : UploadedFile := { path := "/tmp/cov.png" }

/-- Fixture: filesystem holding the avatar temp file. -/
def fsReg0 : FileSys := ["/tmp/av.png"]

/-- Fixture: filesystem holding both temp files. -/
def fsRegCover0 : FileSys := ["/tmp/av.png", "/tmp/cov.png"]

/-- Fixture: an upload collaborator that always succeeds with a fixed
url. -/
def oracle0 : String → Except String UploadApiResponse :=
  fun _ => Except.ok { url := "http://cdn/av.png", publicId := "pid1" }

/-- Fixture: a fully valid registration request with an avatar file and no
cover image. -/
def regReq0 : RegisterRequest :=
  { fullName := some "A", email := some "a@x.com", username := some "a",
    password := some "p",
    files := some { avatar := some [avatarFile0], coverImage := none },
    reqCoverImage := none }

/-- Fixture: the same registration request with a cover-image file also
attached. -/
def regReqWithCover0 : RegisterRequest :=
  { fullName := some "A", email := some "a@x.com", username := some "a",
    password := some "p",
    files := some { avatar := some [avatarFile0], coverImage := some [coverFile0] },
    reqCoverImage := none }

/-- Fixture: a registration request whose username field is absent
(undefined) while every other field is a valid nonempty string. -/
def regReqMissingUsername0 : RegisterRequest :=
  { fullName := some "A", email := some "a@x.com", username := none,
    password := some "p",
    files := some { avatar := some [avatarFile0], coverImage := none },
    reqCoverImage := none }

/-- Fixture: the record created by the successful registration of
regReq0 on an empty database. -/
def regUser0 : UserRecord :=
  { id := 0, username := "a", email := "a@x.com", fullName := "A",
    password := hashPassword "p", avatar := "http://cdn/av.png", coverImage := "",
    refreshToken := none }

/-- Fixture: the response of that successful registration. -/
def regResp0 : HResponse PublicUser :=
  { status := 201, cookies := [], clearedCookies := [],
    body := { statusCode := 200, data := sanitize regUser0,
              message := "User registered sucessfully" } }

/-- The value the upload helper hands back for a given outcome of the
external call: the response on success, null when the promise was
rejected (the attached catch swallows the rejection). -/
def uploadResultValue (r : Except String UploadApiResponse) : Option UploadApiResponse :=
  match r with
  | Except.ok v => some v
  | Except.error _ => none

/-- Inversion for a successful registration: the handler responded with
HTTP status 201, an envelope built with code 200, and a payload that is a
database record with the password and refreshToken fields stripped. -/
theorem registerUser_ok_inv (oracle : String → Except String UploadApiResponse)
    (db : DB) (fs : FileSys) (req : RegisterRequest)
    (resp : HResponse PublicUser) (db1 : DB) (fs1 : FileSys)
    (h : registerUser oracle db fs req = Except.ok (resp, db1, fs1)) :
    resp.status = 201 ∧ resp.body.statusCode = 200 ∧ resp.body.data ∈ db1.map sanitize := by
  unfold registerUser at h
  split at h
  · exact Except.noConfusion h
  split at h
  · exact Except.noConfusion h
  split at h
  · exact Except.noConfusion h
  split at h
  · exact Except.noConfusion h
  split at h
  · exact Except.noConfusion h
  split at h
  · exact Except.noConfusion h
  split at h
  · exact Except.noConfusion h
  split at h
  · exact Except.noConfusion h
  split at h
  · exact Except.noConfusion h
  split at h
  · exact Except.noConfusion h
  split at h
  · exact Except.noConfusion h
  next createdUser hfound =>
    simp only [Except.ok.injEq, Prod.mk.injEq] at h
    obtain ⟨hresp, hdb, hfs⟩ := h
    subst hresp hdb hfs
    refine ⟨rfl, rfl, ?_⟩
    simp only [List.mem_map]
    exact ⟨createdUser, List.mem_of_find?_eq_some hfound, rfl⟩

/-- Inversion for a successful login: HTTP status 200 and envelope code
200. -/
theorem loginUser_ok_inv (env : Env) (db : DB) (nonce : Nat) (req : LoginRequest)
    (resp : HResponse LoginData) (db1 : DB)
    (h : loginUser env db nonce req = Except.ok (resp, db1)) :
    resp.status = 200 ∧ resp.body.statusCode = 200 := by
  unfold loginUser at h
  split at h
  · exact Except.noConfusion h
  split at h
  · exact Except.noConfusion h
  split at h
  · exact Except.noConfusion h
  split at h
  · exact Except.noConfusion h
  simp only [Except.ok.injEq, Prod.mk.injEq] at h
  obtain ⟨hresp, hdb⟩ := h
  subst hresp
  exact ⟨rfl, rfl⟩

/-- Updating by id relocates nothing: if some record with the given id is
found, looking the id up after the update returns the replacement (whose
own id is that id). -/
theorem findById_updateById (db : DB) (uid : Nat) (x w : UserRecord) (hx : x.id = uid)
    (hw : findById db uid = some w) :
    findById (updateById db uid x) uid = some x := by
  induction db with
  | nil => simp [findById] at hw
  | cons v tl ih =>
    by_cases hv : v.id = uid
    · unfold findById updateById
      simp only [List.find?]
      simp [hv, hx]
    · have hb : (v.id == uid) = false := by simp [hv]
      have htl : findById tl uid = some w := by
        unfold findById at hw
        simp only [List.find?] at hw
        rw [hb] at hw
        exact hw
      have hrec := ih htl
      unfold findById at hrec ⊢
      unfold updateById
      simp only [List.find?]
      simp only [hb, if_neg, Bool.false_eq_true, ite_false]
      exact hrec

/-- After the logout update, the record found under the principal id is
the old record with its refresh token cleared. -/
theorem findById_clearRefreshToken (db : DB) (pid : Nat) (u : UserRecord)
    (hu : findById db pid = some u) :
    findById (findByIdAndUpdateClearRefreshToken db pid) pid =
      some { u with refreshToken := none } := by
  induction db with
  | nil => simp [findById] at hu
  | cons v tl ih =>
    by_cases hv : v.id = pid
    · have hveq : v = u := by
        unfold findById at hu
        simp only [List.find?] at hu
        simpa [hv] using hu
      subst hveq
      unfold findById findByIdAndUpdateClearRefreshToken
      simp only [List.find?]
      simp [hv]
    · have hb : (v.id == pid) = false := by simp [hv]
      have htl : findById tl pid = some u := by
        unfold findById at hu
        simp only [List.find?] at hu
        rw [hb] at hu
        exact hu
      have hrec := ih htl
      unfold findById at hrec ⊢
      unfold findByIdAndUpdateClearRefreshToken
      simp only [List.find?]
      simp only [hb, Bool.false_eq_true, ite_false]
      exact hrec

/-- The record as it stands right after a successful login or refresh
mint: the fetched record with the freshly minted refresh token stored on
it. -/
def loggedInRecord (env : Env) (w : UserRecord) (nonce : Nat) : UserRecord :=
  { w with refreshToken := some (mkRefreshToken env w nonce) }

/-- C1: a refresh request presenting a refresh token that is validly
signed with the refresh secret, unexpired, references an existing user
and equals the token stored on that record is nevertheless rejected with
401 Unauthorized request: the presence check at line 185 of the
controller is inverted, so the handler never reaches its success path.
The first three conjuncts certify that the presented token satisfies
every validity condition of the claim; the last evaluates the handler. -/
theorem refreshAccessToken_valid_matching_token_rejected :
    user0.refreshToken = some storedTok0 ∧
    jwtVerify (some storedTok0) env0.refreshTokenSecret = Except.ok user0.id ∧
    findById db0 storedTok0.subject = some user0 ∧
    refreshAccessToken env0 db0 1 (some storedTok0) none =
      Except.error (Failure.api
        { statusCode := 401, message := "Unauthorized request", errors := [] }) := by
  exact ⟨rfl, by decide, by decide, by decide⟩

/-- C2: a refresh request presenting a token that differs from the one
stored on the referenced user record fails with a 401 Unauthorized error,
even when the presented token is validly signed and unexpired. -/
theorem refreshAccessToken_superseded_token_unauthorized (env : Env) (db : DB) (nonce : Nat)
    (ctok btok : Option Token) (t : Token) (u : UserRecord)
    (hpres : jsOrToken ctok btok = some t)
    (_hsig : t.secret = env.refreshTokenSecret)
    (_hexp : t.expired = false)
    (_huser : findById db t.subject = some u)
    (_hdiff : some t ≠ u.refreshToken) :
    refreshAccessToken env db nonce ctok btok =
      Except.error (Failure.api
        { statusCode := 401, message := "Unauthorized request", errors := [] }) :=
  refreshAccessToken_present_token_401 env db nonce ctok btok t hpres

/-- Witness for C2 at a concrete superseded token. -/
theorem refreshAccessToken_superseded_token_unauthorized_witness :
    refreshAccessToken env0 db0 1 (some staleTok0) none =
      Except.error (Failure.api
        { statusCode := 401, message := "Unauthorized request", errors := [] }) :=
  refreshAccessToken_superseded_token_unauthorized env0 db0 1 (some staleTok0) none staleTok0
    user0 rfl rfl rfl (by decide) (by decide)

/-- C3: a registration payload whose username field is absent (while all
other fields are valid) is NOT rejected by the emptiness validation: the
per-field test compares undefined to the empty string, which is false, so
the handler runs on and crashes with a TypeError at
username.toLowerCase() instead of failing with the 400 ValidationError
the claim requires. -/
theorem registerUser_missing_username_typeerror :
    jsTrimEqEmpty regReqMissingUsername0.username = false ∧
    registerUser oracle0 [] fsReg0 regReqMissingUsername0 =
      Except.error (Failure.js
        "TypeError: Cannot read properties of undefined (reading toLowerCase)") := by
  exact ⟨rfl, by decide⟩

/-- C4: every successful registration responds with HTTP status 201 and
a payload that is a database record passed through sanitize, i.e. with
the password and refreshToken fields stripped (PublicUser has no password
field at all). -/
theorem registerUser_success_201_sanitized (oracle : String → Except String UploadApiResponse)
    (db : DB) (fs : FileSys) (req : RegisterRequest)
    (resp : HResponse PublicUser) (db1 : DB) (fs1 : FileSys)
    (h : registerUser oracle db fs req = Except.ok (resp, db1, fs1)) :
    resp.status = 201 ∧ resp.body.data ∈ db1.map sanitize :=
  ⟨(registerUser_ok_inv oracle db fs req resp db1 fs1 h).1,
   (registerUser_ok_inv oracle db fs req resp db1 fs1 h).2.2⟩

/-- Witness for C4 at a concrete successful registration. -/
theorem registerUser_success_201_sanitized_witness :
    regResp0.status = 201 ∧ regResp0.body.data ∈ ([regUser0] : DB).map sanitize :=
  registerUser_success_201_sanitized oracle0 [] fsReg0 regReq0 regResp0 [regUser0] []
    (by decide)

/-- C5: attaching a cover-image file to an otherwise valid registration
makes the handler crash with a TypeError (the condition at line 65 reads
req.coverImage.length, a property that is always undefined) instead of
succeeding; the same request without the cover image succeeds with 201. -/
theorem registerUser_coverImage_attached_typeerror :
    registerUser oracle0 [] fsRegCover0 regReqWithCover0 =
      Except.error (Failure.js
        "TypeError: Cannot read properties of undefined (reading length)") ∧
    registerUser oracle0 [] fsReg0 regReq0 = Except.ok (regResp0, [regUser0], []) := by
  exact ⟨by decide, by decide⟩

/-- C6: login fails with 400 when neither username nor email is supplied,
with 404 when no record matches, and with 401 when the password does not
match the stored hash; each failure is an error value thrown before any
token is minted, so the database is untouched. -/
theorem loginUser_error_cases (env : Env) (db : DB) (nonce : Nat) (req : LoginRequest)
    (u : UserRecord) :
    ((jsFalsy req.username && jsFalsy req.email) = true →
      loginUser env db nonce req =
        Except.error (Failure.api
          { statusCode := 400, message := "Username or email is required", errors := [] })) ∧
    ((jsFalsy req.username && jsFalsy req.email) = false →
      findOne db req.username req.email = none →
      loginUser env db nonce req =
        Except.error (Failure.api
          { statusCode := 404, message := "User not exist", errors := [] })) ∧
    ((jsFalsy req.username && jsFalsy req.email) = false →
      findOne db req.username req.email = some u →
      isPasswordCorrrect u req.password = false →
      loginUser env db nonce req =
        Except.error (Failure.api
          { statusCode := 401, message := "Invalid user credentials", errors := [] })) := by
  refine ⟨?_, ?_, ?_⟩
  · intro h1
    unfold loginUser
    simp [h1]
  · intro h1 h2
    unfold loginUser
    simp [h1, h2]
  · intro h1 h2 h3
    unfold loginUser
    simp [h1, h2, h3]

/-- Witness for C6: the three login failure modes at concrete inputs. -/
theorem loginUser_error_cases_witness :
    loginUser env0 db0 0 { email := none, username := none, password := some "p" } =
      Except.error (Failure.api
        { statusCode := 400, message := "Username or email is required", errors := [] }) ∧
    loginUser env0 db0 0 { email := some "b@x.com", username := none, password := some "p" } =
      Except.error (Failure.api
        { statusCode := 404, message := "User not exist", errors := [] }) ∧
    loginUser env0 db0 0 { email := some "a@x.com", username := none, password := some "wrong" } =
      Except.error (Failure.api
        { statusCode := 401, message := "Invalid user credentials", errors := [] }) :=
  ⟨(loginUser_error_cases env0 db0 0
      { email := none, username := none, password := some "p" } user0).1 (by decide),
   (loginUser_error_cases env0 db0 0
      { email := some "b@x.com", username := none, password := some "p" } user0).2.1
      (by decide) (by decide),
   (loginUser_error_cases env0 db0 0
      { email := some "a@x.com", username := none, password := some "wrong" } user0).2.2
      (by decide) (by decide) (by decide)⟩

/-- C7: a login with a correct secret responds 200, sets both tokens as
http-only secure cookies named accessToken and refreshToken, returns them
in the body together with the sanitized record, persists the new refresh
token on the record, and both minted tokens carry the looked-up record id
as subject. -/
theorem loginUser_success_tokens (env : Env) (db : DB) (nonce : Nat) (req : LoginRequest)
    (u w : UserRecord)
    (hne : (jsFalsy req.username && jsFalsy req.email) = false)
    (hfound : findOne db req.username req.email = some u)
    (hpw : isPasswordCorrrect u req.password = true)
    (hw : findById db u.id = some w) :
    loginUser env db nonce req =
      Except.ok
        ({ status := 200,
           cookies := [("accessToken", some (mkAccessToken env w nonce), secureOpts),
                       ("refreshToken", some (mkRefreshToken env w nonce), secureOpts)],
           clearedCookies := [],
           body := { statusCode := 200,
                     data := { user := some (sanitize (loggedInRecord env w nonce)),
                               accessToken := mkAccessToken env w nonce,
                               refreshToken := mkRefreshToken env w nonce },
                     message := "User logged in succesfully" } },
         updateById db u.id (loggedInRecord env w nonce)) ∧
    (mkAccessToken env w nonce).subject = u.id ∧
    (mkRefreshToken env w nonce).subject = u.id ∧
    secureOpts.httpOnly = true ∧ secureOpts.secure = true ∧
    findById (updateById db u.id (loggedInRecord env w nonce)) u.id =
      some (loggedInRecord env w nonce) ∧
    (loggedInRecord env w nonce).refreshToken = some (mkRefreshToken env w nonce) := by
  have hwid : w.id = u.id := by
    unfold findById at hw
    have hpa := List.find?_some hw
    simpa using hpa
  have hlid : (loggedInRecord env w nonce).id = u.id := by
    simp [loggedInRecord, hwid]
  have hrec := findById_updateById db u.id (loggedInRecord env w nonce) w hlid hw
  refine ⟨?_, by simp [mkAccessToken, hwid], by simp [mkRefreshToken, hwid], rfl, rfl,
    hrec, rfl⟩
  unfold loginUser generateAccessAndRefreshTokens
  simp only [hne, hfound, hpw, hw, Bool.false_eq_true, if_false]
  simp only [loggedInRecord] at hrec
  simp [loggedInRecord, hrec]

/-- Witness for C7 at a concrete successful login. -/
theorem loginUser_success_tokens_witness :
    loginUser env0 db0 5 { email := some "a@x.com", username := none, password := some "p" } =
      Except.ok
        ({ status := 200,
           cookies := [("accessToken", some (mkAccessToken env0 user0 5), secureOpts),
                       ("refreshToken", some (mkRefreshToken env0 user0 5), secureOpts)],
           clearedCookies := [],
           body := { statusCode := 200,
                     data := { user := some (sanitize (loggedInRecord env0 user0 5)),
                               accessToken := mkAccessToken env0 user0 5,
                               refreshToken := mkRefreshToken env0 user0 5 },
                     message := "User logged in succesfully" } },
         updateById db0 user0.id (loggedInRecord env0 user0 5)) ∧
    (mkAccessToken env0 user0 5).subject = user0.id ∧
    (mkRefreshToken env0 user0 5).subject = user0.id ∧
    secureOpts.httpOnly = true ∧ secureOpts.secure = true ∧
    findById (updateById db0 user0.id (loggedInRecord env0 user0 5)) user0.id =
      some (loggedInRecord env0 user0 5) ∧
    (loggedInRecord env0 user0 5).refreshToken = some (mkRefreshToken env0 user0 5) :=
  loginUser_success_tokens env0 db0 5
    { email := some "a@x.com", username := none, password := some "p" } user0 user0
    (by decide) (by decide) (by decide) (by decide)

/-- C8: logout clears the refresh token stored on the principal record,
clears both cookies, responds 200, and a subsequent refresh attempt
presenting any token (in particular the old refresh token) fails with
401. -/
theorem logoutUser_clears_refresh_and_blocks (env : Env) (db : DB) (nonce pid : Nat)
    (u : UserRecord) (t : Token) (btok : Option Token)
    (hu : findById db pid = some u) :
    (logoutUser db pid).1.status = 200 ∧
    (logoutUser db pid).1.clearedCookies = ["accessToken", "refreshToken"] ∧
    findById (logoutUser db pid).2 pid = some { u with refreshToken := none } ∧
    refreshAccessToken env (logoutUser db pid).2 nonce (some t) btok =
      Except.error (Failure.api
        { statusCode := 401, message := "Unauthorized request", errors := [] }) := by
  refine ⟨rfl, rfl, ?_, ?_⟩
  · exact findById_clearRefreshToken db pid u hu
  · exact refreshAccessToken_present_token_401 env (logoutUser db pid).2 nonce
      (some t) btok t rfl

/-- Witness for C8 at the concrete fixture principal. -/
theorem logoutUser_clears_refresh_and_blocks_witness :
    (logoutUser db0 0).1.status = 200 ∧
    (logoutUser db0 0).1.clearedCookies = ["accessToken", "refreshToken"] ∧
    findById (logoutUser db0 0).2 0 = some { user0 with refreshToken := none } ∧
    refreshAccessToken env0 (logoutUser db0 0).2 1 (some storedTok0) none =
      Except.error (Failure.api
        { statusCode := 401, message := "Unauthorized request", errors := [] }) :=
  logoutUser_clears_refresh_and_blocks env0 db0 1 0 user0 storedTok0 none (by decide)

/-- C9: the upload helper, on an existing nonempty local path, returns
the upload response on success and null when the external call was
rejected (uploadResultValue), and the local temporary file is removed in
either case; an absent path returns null without touching the
filesystem. -/
theorem uploadOnCloudnary_contract (oracle : String → Except String UploadApiResponse)
    (fs : FileSys) (p : String) (hp : p ∈ fs) (hne : p ≠ "") :
    uploadOnCloudnary oracle fs (some p) =
      Except.ok (uploadResultValue (oracle p), fs.filter (fun q => q ≠ p)) ∧
    p ∉ fs.filter (fun q => q ≠ p) ∧
    uploadOnCloudnary oracle fs none = Except.ok (none, fs) := by
  refine ⟨?_, by simp, rfl⟩
  cases horacle : oracle p with
  | ok r => simp [uploadOnCloudnary, unlinkSync, uploadResultValue, hne, hp, horacle]
  | error e => simp [uploadOnCloudnary, unlinkSync, uploadResultValue, hne, hp, horacle]

/-- Witness for C9 at a concrete path and oracle. -/
theorem uploadOnCloudnary_contract_witness :
    uploadOnCloudnary oracle0 fsReg0 (some "/tmp/av.png") =
      Except.ok (uploadResultValue (oracle0 "/tmp/av.png"),
        fsReg0.filter (fun q => q ≠ "/tmp/av.png")) ∧
    "/tmp/av.png" ∉ fsReg0.filter (fun q => q ≠ "/tmp/av.png") ∧
    uploadOnCloudnary oracle0 fsReg0 none = Except.ok (none, fsReg0) :=
  uploadOnCloudnary_contract oracle0 fsReg0 "/tmp/av.png" (by decide) (by decide)

/-- C10 counterexample: a concrete successful registration whose HTTP
status (201) differs from the numeric code inside the returned envelope
(200), refuting the claim that they always agree. -/
theorem registerUser_envelope_code_mismatch :
    registerUser oracle0 [] fsReg0 regReq0 = Except.ok (regResp0, [regUser0], []) ∧
    regResp0.status = 201 ∧
    regResp0.body.statusCode = 200 ∧
    regResp0.status ≠ regResp0.body.statusCode := by
  exact ⟨by decide, rfl, rfl, by decide⟩

/-- C10 amended: for every successful login response and every logout
response the envelope code equals the HTTP status, while a successful
registration pairs HTTP status 201 with envelope code 200 (and the
refresh handler has no reachable success response at all). -/
theorem envelope_code_matches_status_outside_register (env : Env) (db : DB) (nonce : Nat)
    (req : LoginRequest) (resp : HResponse LoginData) (db1 : DB) (pid : Nat)
    (oracle : String → Except String UploadApiResponse) (rdb : DB) (fs : FileSys)
    (rreq : RegisterRequest) (rresp : HResponse PublicUser) (rdb1 : DB) (rfs1 : FileSys)
    (hlogin : loginUser env db nonce req = Except.ok (resp, db1))
    (hreg : registerUser oracle rdb fs rreq = Except.ok (rresp, rdb1, rfs1)) :
    resp.body.statusCode = resp.status ∧
    ((logoutUser db pid).1).body.statusCode = (logoutUser db pid).1.status ∧
    rresp.status = 201 ∧ rresp.body.statusCode = 200 := by
  have hl := loginUser_ok_inv env db nonce req resp db1 hlogin
  have hr := registerUser_ok_inv oracle rdb fs rreq rresp rdb1 rfs1 hreg
  exact ⟨hl.2.trans hl.1.symm, rfl, hr.1, hr.2.1⟩

/-- Witness for the amended C10 at a concrete login, logout and
registration. -/
theorem envelope_code_matches_status_outside_register_witness :
    (⟨200,
      [("accessToken", some (mkAccessToken env0 user0 5), secureOpts),
       ("refreshToken", some (mkRefreshToken env0 user0 5), secureOpts)],
      [],
      ⟨200,
       { user := some (sanitize (loggedInRecord env0 user0 5)),
         accessToken := mkAccessToken env0 user0 5,
         refreshToken := mkRefreshToken env0 user0 5 },
       "User logged in succesfully"⟩⟩ : HResponse LoginData).body.statusCode =
      (⟨200,
        [("accessToken", some (mkAccessToken env0 user0 5), secureOpts),
         ("refreshToken", some (mkRefreshToken env0 user0 5), secureOpts)],
        [],
        ⟨200,
         { user := some (sanitize (loggedInRecord env0 user0 5)),
           accessToken := mkAccessToken env0 user0 5,
           refreshToken := mkRefreshToken env0 user0 5 },
         "User logged in succesfully"⟩⟩ : HResponse LoginData).status ∧
    ((logoutUser db0 0).1).body.statusCode = (logoutUser db0 0).1.status ∧
    regResp0.status = 201 ∧ regResp0.body.statusCode = 200 :=
  envelope_code_matches_status_outside_register env0 db0 5
    { email := some "a@x.com", username := none, password := some "p" }
    ⟨200,
     [("accessToken", some (mkAccessToken env0 user0 5), secureOpts),
      ("refreshToken", some (mkRefreshToken env0 user0 5), secureOpts)],
     [],
     ⟨200,
      { user := some (sanitize (loggedInRecord env0 user0 5)),
        accessToken := mkAccessToken env0 user0 5,
        refreshToken := mkRefreshToken env0 user0 5 },
      "User logged in succesfully"⟩⟩
    (updateById db0 user0.id (loggedInRecord env0 user0 5)) 0
    oracle0 [] fsReg0 regReq0 regResp0 [regUser0] []
    (by decide) (by decide)

end LearnExpress
